import Mathlib

/-!
Verification of the conversational agent control loop of the AEGIS repository
(`src/agents/graph.py`): the sliding-window history compactor
(`sliding_window_messages`), the capability registry (`TOOLS`), the tool
invoker (`tool_execution_node`), the termination predicate (`should_continue`)
and the reasoning/tools loop built from them.

Modelling conventions:
* Python strings are Lean `String`s; the Python operations `in`, `strip`,
  `lower`, `split`, `isdigit`, `int(...)` are re-implemented below over
  character lists (`pyIn`, `pyStrip`, `pyLower`, `pySplit`, `pyIsDigit`,
  `pyToInt`) so that every definition evaluates inside the kernel.
* The language model, the tool handlers and the secondary fenced-code-block
  tool-call parser are external collaborators; they enter as function
  parameters (`model`, `oracle`, `alt`).  A handler that raises is an
  `Except.error`; the loop itself is total.
* `langgraph.add_messages` is modelled as list concatenation (the reducer is
  only ever applied to freshly constructed messages, per spec section 4.1
  step 1).
* Browser geolocation floats are carried opaquely; the loop only forwards
  them and tests them for zero, so they are modelled as `Int`.
-/

/-- Python `pat in s` on characters: does `p` occur at the head of `l`? -/
def matchesAt : List Char → List Char → Bool
  | [], _ => true
  | _ :: _, [] => false
  | p :: ps, c :: cs => p == c && matchesAt ps cs

/-- Python substring containment `pat in s` over character lists. -/
def occursIn (p : List Char) : List Char → Bool
  | [] => p.isEmpty
  | c :: cs => matchesAt p (c :: cs) || occursIn p cs

/-- Python `pat in s` for strings. -/
def pyIn (pat s : String) : Bool := occursIn pat.toList s.toList

/-- Python `s.lower()` (ASCII; the keyword set and tool names are ASCII). -/
def pyLower (s : String) : String := String.mk (s.toList.map Char.toLower)

/-- Python `s.strip()`: remove leading and trailing whitespace. -/
def pyStrip (s : String) : String :=
  String.mk (((s.toList.dropWhile Char.isWhitespace).reverse.dropWhile
    Char.isWhitespace).reverse)

/-- Python `s.isdigit()`: nonempty and all digits. -/
def pyIsDigit (s : String) : Bool :=
  !s.toList.isEmpty && s.toList.all Char.isDigit

/-- Python `int(s)` for the digit-only strings admitted by `pyIsDigit`. -/
def pyToInt (s : String) : Int :=
  Int.ofNat (s.toList.foldl (fun a c => a * 10 + (c.toNat - '0'.toNat)) 0)

/-- Fuel-driven worker for Python `s.split(sep)` (nonempty separator); the
fuel argument only establishes structural termination and is always supplied
large enough. -/
def splitChAux (sep : List Char) : Nat → List Char → List (List Char)
  | _, [] => [[]]
  | 0, l => [l]
  | fuel + 1, c :: cs =>
    if !sep.isEmpty && matchesAt sep (c :: cs) then
      [] :: splitChAux sep fuel ((c :: cs).drop sep.length)
    else
      match splitChAux sep fuel cs with
      | [] => [[c]]
      | s :: ss => (c :: s) :: ss

/-- Python `s.split(sep)` over strings (unbounded split). -/
def pySplit (s sep : String) : List String :=
  (splitChAux sep.toList s.toList.length s.toList).map String.mk

/-- Python `s.split(sep, 1)` restricted to the case `sep in s`, yielding the
text before the first separator and everything after it. -/
def pySplit1 (s sep : String) : String × String :=
  match pySplit s sep with
  | [] => (s, "")
  | [x] => (x, "")
  | x :: rest => (x, String.intercalate sep rest)

/-- Python `[p.strip() for p in args.split(",")]`. -/
def pySplitStrip (args : String) : List String :=
  (pySplit args ",").map pyStrip

/-- Message roles of the conversation history (`SystemMessage`,
`HumanMessage`, `AIMessage` in `langchain_core.messages`). -/
inductive Message where
  | system (content : String)
  | user (content : String)
  | assistant (content : String)
deriving DecidableEq

/-- Text payload of a message (`msg.content`). -/
def Message.content : Message → String
  | .system c => c
  | .user c => c
  | .assistant c => c

/-- Python `isinstance(msg, SystemMessage)`. -/
def Message.isSystem : Message → Bool
  | .system _ => true
  | _ => false

/-- Maximum number of messages kept in the active window
(`AEGIS_MAX_WINDOW_SIZE`, default `20`; the default is modelled). -/
def MAX_WINDOW_SIZE : Nat := 20

/-- Number of recent messages always preserved (`AEGIS_PRESERVE_RECENT`,
default `6`; the default is modelled). -/
def PRESERVE_RECENT : Nat := 6

/-- Keyword allowlist for retained system messages
(`src/agents/graph.py` lines 52-55). -/
def keyword_list : List String :=
  ["patient context", "medical record", "emergency", "critical",
   "vital", "alert", "diagnosis", "medication"]

/-- System message whose lowercased text contains one of the keywords
(`src/agents/graph.py` lines 49-56). -/
def isKeywordSystem : Message → Bool
  | .system content => keyword_list.any (fun k => pyIn k (pyLower content))
  | _ => false

/-- Python tail slice `l[-k:]` (note `l[-0:]` is the whole list). -/
def pyTail (k : Nat) (l : List Message) : List Message :=
  if k = 0 then l else l.drop (l.length - k)

/-- The `system_messages` accumulator of the eviction pass
(`src/agents/graph.py` lines 45-56): keyword-matching system messages, in
original order. -/
def system_messages (combined : List Message) : List Message :=
  combined.filter isKeywordSystem

/-- The `conversation_messages` accumulator (`src/agents/graph.py` lines
46-58): exactly the non-`System` messages — the `else` branch of the loop
adds nothing for a `System` message matching no keyword, so such messages
land in neither partition. -/
def conversation_messages (combined : List Message) : List Message :=
  combined.filter (fun m => !m.isSystem)

/-- `available_slots` (`src/agents/graph.py` lines 60-64): window size minus
retained system messages minus one reserved marker slot, clamped from below
by `PRESERVE_RECENT`. -/
def available_slots (combined : List Message) : Nat :=
  let slots0 := MAX_WINDOW_SIZE - (system_messages combined).length - 1
  if slots0 < PRESERVE_RECENT then PRESERVE_RECENT else slots0

/-- `recent_messages` (`src/agents/graph.py` line 67):
`conversation_messages[-available_slots:]` when nonempty. -/
def recent_messages (combined : List Message) : List Message :=
  if (conversation_messages combined).isEmpty then []
  else pyTail (available_slots combined) (conversation_messages combined)

/-- `dropped_count` (`src/agents/graph.py` line 70). -/
def dropped_count (combined : List Message) : Nat :=
  (conversation_messages combined).length - (recent_messages combined).length

/-- The synthetic summary marker (`src/agents/graph.py` line 79). -/
def markerMessage (n : Nat) : Message :=
  Message.system ("[Prior conversation: " ++ toString n ++
    " earlier messages summarized. Recent context preserved.]")

/-- Assembly of the eviction result (`src/agents/graph.py` lines 72-87): at
most 3 retained system messages, then the marker when anything conversational
was dropped, then the recent conversational tail. -/
def evictionResult (combined : List Message) : List Message :=
  (system_messages combined).take 3 ++
  (if 0 < dropped_count combined then [markerMessage (dropped_count combined)]
   else []) ++
  recent_messages combined

/-- The sliding-window message reducer of `src/agents/graph.py` lines 24-87:
concatenate (the `add_messages` step), return unchanged while within
`MAX_WINDOW_SIZE`, otherwise evict. -/
def sliding_window_messages (existing incoming : List Message) : List Message :=
  let combined := existing ++ incoming
  if combined.length ≤ MAX_WINDOW_SIZE then combined
  else evictionResult combined

/-- The distinct tool handler functions imported in `src/agents/graph.py`
lines 88-124.  Handlers are external collaborators; only their identity is
modelled. -/
inductive Handler where
  | search_medical_knowledge
  | search_clinical_guidance
  | locate_nearest_facility
  | trigger_emergency_alert
  | search_physician
  | search_my_physicians
  | read_medical_history
  | get_patient_profile
  | find_providers_online
  | book_appointment
  | book_appointment_voice
  | save_physician_contact
  | add_calendar_event
  | get_daily_summaries
  | get_health_goals
  | set_health_goal
  | check_critical_vitals
  | find_nearest_hospital
  | dispatch_emergency_services
  | assess_and_respond_emergency
  | emergency_call
  | get_emergency_contacts
  | simulate_ecg
  | award_habitica_xp
  | get_monday_briefing
  | check_med_safety
  | generate_lifestyle_plan
  | save_daily_summary
  | analyze_health_topic
  | get_watch_vitals
deriving DecidableEq

/-- The capability registry `TOOLS` of `src/agents/graph.py` lines 126-165,
in dictionary insertion order. -/
def TOOLS : List (String × Handler) :=
  [("GUIDANCE", .search_clinical_guidance),
   ("SEARCH", .search_clinical_guidance),
   ("SEARCH_PUBMED", .search_medical_knowledge),
   ("LOCATE_FACILITY", .locate_nearest_facility),
   ("LOCATE", .locate_nearest_facility),
   ("ALERT", .trigger_emergency_alert),
   ("SEARCH_PHYSICIAN", .search_physician),
   ("MY_PHYSICIAN", .search_my_physicians),
   ("READ_HISTORY", .read_medical_history),
   ("GET_PROFILE", .get_patient_profile),
   ("FIND_PROVIDERS", .find_providers_online),
   ("BOOK_APPOINTMENT", .book_appointment),
   ("CALL_PHYSICIAN", .book_appointment_voice),
   ("SAVE_PHYSICIAN", .save_physician_contact),
   ("ADD_CALENDAR", .add_calendar_event),
   ("GET_SUMMARIES", .get_daily_summaries),
   ("SAVE_SUMMARY", .save_daily_summary),
   ("ANALYZE_HEALTH", .analyze_health_topic),
   ("WATCH_VITALS", .get_watch_vitals),
   ("GET_GOALS", .get_health_goals),
   ("SET_GOAL", .set_health_goal),
   ("CHECK_VITALS", .check_critical_vitals),
   ("FIND_HOSPITAL", .find_nearest_hospital),
   ("DISPATCH_EMERGENCY", .dispatch_emergency_services),
   ("EMERGENCY_RESPONSE", .assess_and_respond_emergency),
   ("EMERGENCY_CALL", .emergency_call),
   ("CALL_EMERGENCY", .emergency_call),
   ("GET_EMERGENCY_CONTACTS", .get_emergency_contacts),
   ("SIMULATE_ECG", .simulate_ecg),
   ("AWARD_XP", .award_habitica_xp),
   ("GET_BRIEFING", .get_monday_briefing),
   ("CHECK_SAFETY", .check_med_safety),
   ("LIFESTYLE_PLAN", .generate_lifestyle_plan),
   ("OPTIMIZE_LIFESTYLE", .generate_lifestyle_plan)]

/-- A value placed in the keyword-argument mapping passed to
`tool_func.invoke({...})`: a string, an integer, or Python `None`. -/
inductive Value where
  | vs (v : String)
  | vi (v : Int)
  | vnone
deriving DecidableEq

/-- Caller-supplied identifiers threaded into tool argument construction
(`user_id`, and `lat`/`lon` from `user_location`, defaulting to 0). -/
structure Ctx where
  user_id : Int
  lat : Int
  lon : Int
deriving DecidableEq

/-- Outcome of the per-tool argument-building code: either a keyword-argument
mapping for `invoke`, or (for a below-arity tool) an inline error string that
is wrapped as an ordinary tool result. -/
inductive BuildResult where
  | invoke (argmap : List (String × Value))
  | inline (text : String)
deriving DecidableEq

/-- Optional positional field: `int(parts[i]) if len(parts) > i and
parts[i].isdigit() else None`. -/
def optIntField (parts : List String) (i : Nat) : Value :=
  match parts.get? i with
  | some p => if pyIsDigit p then .vi (pyToInt p) else .vnone
  | none => .vnone

/-- The tool-specific argument-building rules of `tool_execution_node`
(`src/agents/graph.py` lines 373-540), one branch per `elif`; `tool_name`
and `args` are already stripped.  Registered names without a dedicated
branch (only `LOCATE_FACILITY`) fall through to the generic
`{"args": args}` fallback. -/
def buildCall (tool_name args : String) (ctx : Ctx) : BuildResult :=
  match tool_name with
  | "LOCATE" =>
    if pyIn "," args then
      let p := pySplit1 args ","
      .invoke [("facility_type", .vs (pyStrip p.1)), ("city", .vs (pyStrip p.2)),
               ("lat", .vi ctx.lat), ("lon", .vi ctx.lon)]
    else
      .invoke [("facility_type", .vs (pyStrip args)),
               ("lat", .vi ctx.lat), ("lon", .vi ctx.lon)]
  | "SEARCH_PHYSICIAN" =>
    if pyIn "," args then
      let p := pySplit1 args ","
      .invoke [("name", .vs (pyStrip p.1)), ("clinic", .vs (pyStrip p.2))]
    else
      .invoke [("name", .vs (pyStrip args))]
  | "ALERT" =>
    .invoke [("contact_number", .vs "+96171186871"), ("message", .vs args)]
  | "READ_HISTORY" =>
    .invoke [("query", .vs args), ("user_id", .vi ctx.user_id)]
  | "GET_PROFILE" =>
    .invoke [("user_id", .vi ctx.user_id)]
  | "SAVE_PHYSICIAN" =>
    match pySplitStrip args with
    | n :: sp :: cl :: ph :: _ =>
      .invoke [("name", .vs n), ("specialty", .vs sp), ("clinic", .vs cl),
               ("phone", .vs ph), ("user_id", .vi ctx.user_id)]
    | _ =>
      .inline ("Tool Error: Invalid arguments for SAVE_PHYSICIAN. Expected format: [SAVE_PHYSICIAN: Name, Specialty, Clinic, Phone]. You provided: " ++ args)
  | "BOOK_APPOINTMENT" =>
    match pySplitStrip args with
    | pn :: t :: _ =>
      .invoke [("physician_name", .vs pn), ("time", .vs t),
               ("user_id", .vi ctx.user_id)]
    | _ =>
      .invoke [("physician_name", .vs (pyStrip args)), ("time", .vs "Unknown Time"),
               ("user_id", .vi ctx.user_id)]
  | "CALL_PHYSICIAN" =>
    match pySplitStrip args with
    | pn :: ph :: t :: _ =>
      .invoke [("physician_name", .vs pn), ("physician_phone", .vs ph),
               ("appointment_time", .vs t), ("user_id", .vi ctx.user_id)]
    | _ =>
      .inline ("Tool Error: Invalid arguments for CALL_PHYSICIAN. Expected format: [CALL_PHYSICIAN: Name, Phone, Time]. You provided: " ++ args)
  | "ADD_CALENDAR" =>
    match pySplitStrip args with
    | su :: st :: en :: _ =>
      .invoke [("summary", .vs su), ("start_time", .vs st), ("end_time", .vs en)]
    | _ =>
      .inline ("Tool Error: Invalid arguments for ADD_CALENDAR. Expected format: [ADD_CALENDAR: Summary, StartTime, EndTime]. You provided: " ++ args)
  | "GET_SUMMARIES" =>
    .invoke [("days", .vi (if pyIsDigit args then pyToInt args else 7)),
             ("user_id", .vi ctx.user_id)]
  | "SAVE_SUMMARY" =>
    .invoke [("user_id", .vi ctx.user_id),
             ("date_str",
               if args ≠ "" ∧ pyStrip args ≠ "" then .vs (pyStrip args) else .vnone)]
  | "ANALYZE_HEALTH" =>
    .invoke [("topic", .vs (pyStrip args)), ("user_id", .vi ctx.user_id)]
  | "WATCH_VITALS" =>
    .invoke [("user_id", .vi ctx.user_id),
             ("hours", .vi (if pyIsDigit (pyStrip args) then pyToInt (pyStrip args) else 24))]
  | "GET_GOALS" =>
    .invoke [("user_id", .vi ctx.user_id)]
  | "SET_GOAL" =>
    .invoke [("description", .vs args), ("user_id", .vi ctx.user_id)]
  | "CHECK_VITALS" =>
    let parts := pySplitStrip args
    .invoke [("heart_rate", optIntField parts 0), ("spo2", optIntField parts 1),
             ("blood_pressure_systolic", optIntField parts 2)]
  | "FIND_HOSPITAL" =>
    .invoke [("city", .vs (if args ≠ "" then pyStrip args else "Beirut")),
             ("lat", if ctx.lat ≠ 0 then .vi ctx.lat else .vnone),
             ("lon", if ctx.lon ≠ 0 then .vi ctx.lon else .vnone)]
  | "DISPATCH_EMERGENCY" =>
    match pySplitStrip args with
    | pn :: co :: lo :: _ =>
      .invoke [("patient_name", .vs pn), ("condition", .vs co),
               ("location", .vs lo), ("user_id", .vi ctx.user_id)]
    | _ =>
      .inline ("Tool Error: Invalid arguments for DISPATCH_EMERGENCY. Expected format: [DISPATCH_EMERGENCY: PatientName, Condition, Location]. You provided: " ++ args)
  | "EMERGENCY_RESPONSE" =>
    let parts := pySplitStrip args
    .invoke [("heart_rate", optIntField parts 0), ("spo2", optIntField parts 1),
             ("blood_pressure_systolic", optIntField parts 2),
             ("patient_location", .vs ((parts.get? 3).getD "Unknown")),
             ("user_id", .vi ctx.user_id)]
  | "EMERGENCY_CALL" | "CALL_EMERGENCY" =>
    .invoke [("user_id", .vi ctx.user_id),
             ("reason", .vs (if args ≠ "" then pyStrip args
                             else "Emergency assistance requested"))]
  | "GET_EMERGENCY_CONTACTS" =>
    .invoke [("user_id", .vi ctx.user_id)]
  | "SIMULATE_ECG" =>
    let parts := pySplitStrip args
    .invoke [("duration", .vi (match parts.get? 0 with
                | some p => if pyIsDigit p then pyToInt p else 10
                | none => 10)),
             ("heart_rate", .vi (match parts.get? 1 with
                | some p => if pyIsDigit p then pyToInt p else 70
                | none => 70))]
  | "AWARD_XP" =>
    .invoke [("task_name", .vs args)]
  | "GET_BRIEFING" =>
    .invoke [("user_id", .vi ctx.user_id)]
  | "CHECK_SAFETY" =>
    if pyIn "," args then
      let p := pySplit1 args ","
      .invoke [("med_name", .vs (pyStrip p.1)), ("symptom", .vs (pyStrip p.2))]
    else
      .inline ("Tool Error: Invalid arguments for CHECK_SAFETY. Expected format: [CHECK_SAFETY: Medication, Symptom]. You provided: " ++ args)
  | "FIND_PROVIDERS" =>
    if pyIn "," args then
      let p := pySplit1 args ","
      .invoke [("specialty", .vs (pyStrip p.1)), ("location", .vs (pyStrip p.2)),
               ("lat", .vi ctx.lat), ("lon", .vi ctx.lon)]
    else
      .invoke [("specialty", .vs (pyStrip args)), ("location", .vs ""),
               ("lat", .vi ctx.lat), ("lon", .vi ctx.lon)]
  | "SEARCH" | "GUIDANCE" | "SEARCH_PUBMED" =>
    .invoke [("query", .vs args)]
  | "MY_PHYSICIAN" =>
    .invoke [("query", .vs args)]
  | "LIFESTYLE_PLAN" | "OPTIMIZE_LIFESTYLE" =>
    .invoke [("user_id", .vi ctx.user_id)]
  | _ =>
    .invoke [("args", .vs args)]

/-- Type of the handler collaborator: invoking a handler with a
keyword-argument mapping either returns a result string or raises
(`Except.error` carries `str(e)`). -/
def Oracle : Type := Handler → List (String × Value) → Except String String

/-- Processing of one parsed `(tool_name, args)` pair inside the `for` loop
of `tool_execution_node` (`src/agents/graph.py` lines 366-548): strip both
fields, look the name up in `TOOLS`, build the arguments, invoke, and wrap
the outcome — result, caught exception, or unknown tool — as one `System`
message. -/
def processCall (oracle : Oracle) (ctx : Ctx) (rawName rawArgs : String) : Message :=
  let tool_name := pyStrip rawName
  let args := pyStrip rawArgs
  match TOOLS.lookup tool_name with
  | some tool_func =>
    match buildCall tool_name args ctx with
    | .invoke argmap =>
      match oracle tool_func argmap with
      | .ok result => .system ("Tool Result (" ++ tool_name ++ "): " ++ result)
      | .error e => .system ("Tool Error (" ++ tool_name ++ "): " ++ e)
    | .inline result => .system ("Tool Result (" ++ tool_name ++ "): " ++ result)
  | none => .system ("Error: Tool " ++ tool_name ++ " not found.")

/-- The whole `for tool_name, args in tool_calls` loop: one `System` message
per parsed pair, in parse order; a raising handler is caught per-iteration,
so later pairs are still processed and no exception escapes. -/
def execCalls (oracle : Oracle) (ctx : Ctx) (calls : List (String × String)) :
    List Message :=
  calls.map (fun p => processCall oracle ctx p.1 p.2)

/-- Scanner for the non-greedy group `(.*?)\]` of the tool-call pattern:
collect characters up to the first `]`; `.` does not match a newline, so a
newline before the closing bracket fails the match at this start position. -/
def scanArgs : List Char → Option (List Char × List Char)
  | [] => none
  | c :: cs =>
    if c = ']' then some ([], cs)
    else if c = '\n' then none
    else match scanArgs cs with
      | some (as, r) => some (c :: as, r)
      | none => none

/-- Character class `[A-Z_]` of the tool-call pattern. -/
def upperUnd (c : Char) : Bool := ('A' ≤ c && c ≤ 'Z') || c = '_'

/-- Fuel-driven worker for `re.findall(r"\[([A-Z_]+):(.*?)\]", content)`:
leftmost scan; at each `[` require a nonempty `[A-Z_]+` run, then `:`, then
a newline-free argument up to the first `]`; on success continue after the
match, on failure continue at the next character.  The fuel argument only
establishes structural termination and is always supplied large enough. -/
def findallAux : Nat → List Char → List (String × String)
  | 0, _ => []
  | _, [] => []
  | fuel + 1, '[' :: cs =>
    let nm := cs.takeWhile upperUnd
    match nm, cs.dropWhile upperUnd with
    | _ :: _, ':' :: rest =>
      (match scanArgs rest with
       | some (as, r) => (String.mk nm, String.mk as) :: findallAux fuel r
       | none => findallAux fuel cs)
    | _, _ => findallAux fuel cs
  | fuel + 1, _ :: cs => findallAux fuel cs

/-- `re.findall(r"\[([A-Z_]+):(.*?)\]", content)` over a string. -/
def parseToolCalls (content : String) : List (String × String) :=
  findallAux (content.toList.length + 1) content.toList

/-- Type of the secondary parser for the fenced ```tool_code``` format
(`src/agents/graph.py` lines 349-353): it is consulted only when the primary
pattern finds nothing and contributes at most one `(name, args)` pair.  Its
regex is kept abstract as a collaborator parameter; no verified property
depends on its internals. -/
def AltParse : Type := String → Option (String × String)

/-- The tool execution node (`src/agents/graph.py` lines 331-550): parse the
latest message text, fall back to the fenced format when the primary pattern
finds nothing, and produce one `System` message per parsed pair (an empty
parse produces no messages). -/
def tool_execution_node (oracle : Oracle) (alt : AltParse) (ctx : Ctx)
    (content : String) : List Message :=
  let tool_calls := parseToolCalls content
  let tool_calls :=
    if tool_calls.isEmpty then
      match alt content with
      | some p => [p]
      | none => []
    else tool_calls
  execCalls oracle ctx tool_calls

/-- The conversation state threaded through the graph (`AgentState` in
`src/agents/graph.py` lines 167-173); `medical_record` and `user_context`
are opaque read-only strings not consulted by the control flow and are
omitted; `iterations` starts at 0. -/
structure AgentState where
  messages : List Message
  iterations : Nat
  ctx : Ctx
deriving DecidableEq

/-- Routing outcome of the conditional edge: `"tools"` or `END`. -/
inductive Route where
  | tools
  | terminal
deriving DecidableEq

/-- The `[TOOL:` check of `should_continue` (`src/agents/graph.py` lines
566-570): brackets present and some registered name occurring as
`"[NAME:"`. -/
def bracketToolMatch (content : String) : Bool :=
  pyIn "[" content && pyIn "]" content &&
    TOOLS.any (fun p => pyIn ("[" ++ p.1 ++ ":") content)

/-- The ```tool_code``` check of `should_continue` (`src/agents/graph.py`
lines 572-577): a fence marker anywhere and some registered name followed by
`:` anywhere in the text (the name is not required to be inside the
fence). -/
def fencedToolMatch (content : String) : Bool :=
  pyIn "```" content && TOOLS.any (fun p => pyIn (p.1 ++ ":") content)

/-- The conditional edge `should_continue` (`src/agents/graph.py` lines
552-579): hard iteration cap first, then the two tool-request heuristics on
the latest message when it is an assistant message.  (Python indexes
`messages[-1]`; the loop never reaches this with an empty history, so the
empty case is given the harmless default used for non-assistant content.) -/
def should_continue (s : AgentState) : Route :=
  let last_message := s.messages.getLast?.getD (.system "")
  if 5 < s.iterations then .terminal
  else
    match last_message with
    | .assistant content =>
      if bracketToolMatch content then .tools
      else if fencedToolMatch content then .tools
      else .terminal
    | _ => .terminal

/-- The reasoning node (`src/agents/graph.py` lines 175-329) at the state
level: the language-model collaborator `model` maps the state (it sees the
rendered prompt: instructions, contexts and history) to one completion; the
node contributes one assistant message through the sliding-window reducer
and increments `iterations` by exactly 1. -/
def reasoningUpdate (model : AgentState → String) (s : AgentState) : AgentState :=
  { s with
    messages := sliding_window_messages s.messages [.assistant (model s)],
    iterations := s.iterations + 1 }

/-- The tools node at the state level: run `tool_execution_node` on the
latest message's text and merge its messages through the sliding-window
reducer; `iterations` is not touched. -/
def toolsUpdate (oracle : Oracle) (alt : AltParse) (s : AgentState) : AgentState :=
  { s with
    messages := sliding_window_messages s.messages
      (tool_execution_node oracle alt s.ctx
        ((s.messages.getLast?.getD (.system "")).content)) }

/-- The compiled graph (`src/agents/graph.py` lines 581-600) from the entry
point: run the reasoning node, evaluate the conditional edge, on `"tools"`
run the tools node and loop, on `END` stop.  Returns the final state and the
number of reasoning-node invocations performed. -/
def runLoop (model : AgentState → String) (oracle : Oracle) (alt : AltParse)
    (s : AgentState) : AgentState × Nat :=
  if h : should_continue (reasoningUpdate model s) = Route.tools then
    let p := runLoop model oracle alt (toolsUpdate oracle alt (reasoningUpdate model s))
    (p.1, p.2 + 1)
  else (reasoningUpdate model s, 1)
termination_by 6 - s.iterations
decreasing_by
  have hle : (reasoningUpdate model s).iterations ≤ 5 := by
    by_contra hc
    simp only [should_continue] at h
    rw [if_pos (by omega)] at h
    exact Route.noConfusion h
  simp only [toolsUpdate, reasoningUpdate] at hle ⊢
  omega

/-- Handler call performed by `processCall` for a registered name whose
argument building reaches `tool_func.invoke`: the pair (handler, arguments)
as consumed by the collaborator, before the result is wrapped in a `System`
message. -/
def rawInvoke (oracle : Oracle) (ctx : Ctx) (rawName rawArgs : String) :
    Option (Except String String) :=
  match TOOLS.lookup (pyStrip rawName), buildCall (pyStrip rawName) (pyStrip rawArgs) ctx with
  | some tool_func, .invoke argmap => some (oracle tool_func argmap)
  | _, _ => none

/-- Elements at the odd positions of a list. -/
def oddSegs {α : Type} : List α → List α
  | [] => []
  | [_] => []
  | _ :: b :: rest => b :: oddSegs rest

/-- Modelled from the spec: the spec's notion of the interior of fenced code
blocks — the segments between successive ``` delimiters, i.e. the segments
at odd positions after splitting on ``` (the repository's
`should_continue` has no such notion; this definition exists only to be
compared with the implemented check). -/
def fencedSegments (c : String) : List String := oddSegs (pySplit c "```")

/-- Modelled from the spec: "it contains a fenced code block where some
registered NAME appears followed by `:`" — some registered name followed by
a colon occurring inside a fenced segment. -/
def specFencedToolRequest (c : String) : Bool :=
  (fencedSegments c).any (fun seg => TOOLS.any (fun p => pyIn (p.1 ++ ":") seg))

/-- Concrete histories and states used by witnesses and counterexamples. -/
def exC2 : List Message := (List.range 20).map (fun i => Message.user (toString i))

/-- Incoming batch for the C2 evaluation: one most-recent `System` message
matching no keyword. -/
def incC2 : List Message := [Message.system "note to self"]

/-- Assistant message requesting an unregistered tool. -/
def stateC3 : AgentState := ⟨[Message.assistant "[NOPE: x]"], 1, ⟨1, 0, 0⟩⟩

/-- Caller context used in concrete evaluations. -/
def ctxC4 : Ctx := ⟨7, 33, 35⟩

/-- Assistant text that mentions a registered capability name followed by a
colon only OUTSIDE the fenced code block it also contains. -/
def contentC5 : String := "Note SEARCH: diabetes\n```\njust code here\n```"

/-- State whose latest assistant message is `contentC5`, below the cap. -/
def stateC5 : AgentState := ⟨[Message.assistant contentC5], 1, ⟨1, 0, 0⟩⟩

/-- History for the C8 witness: a critical system message followed by 20
user messages (eviction triggers). -/
def exC8 : List Message :=
  Message.system "CRITICAL update" :: (List.range 20).map (fun i => Message.user (toString i))

/-- Handler collaborator that always raises, for the C9 witness. -/
def oracleBoom : Oracle := fun _ _ => .error "boom"

/-- Model collaborator that always requests a registered tool. -/
def modelC1 : AgentState → String := fun _ => "[GET_PROFILE: 1]"

/-- Handler collaborator that always succeeds. -/
def oracleOk : Oracle := fun _ _ => .ok "ok"

/-- Secondary parser collaborator that never matches. -/
def altNone : AltParse := fun _ => none

/-- Fresh conversation state for the C1 witness. -/
def stateC1 : AgentState := ⟨[Message.user "Hi"], 0, ⟨1, 0, 0⟩⟩

/-- C2: when eviction triggers, a `System` message matching no keyword is
dropped outright even when it is the single most recent message: with 20
`User` messages and one incoming non-keyword `System` message, the merge
result does not contain that `System` message (the claim and the function's
own docstring say recent messages are always preserved and non-keyword
`System` messages belong to the recency-retained conversation partition). -/
theorem C2_nonkeyword_system_dropped :
    (exC2 ++ incC2).getLast? = some (Message.system "note to self") ∧
    Message.system "note to self" ∉ sliding_window_messages exC2 incC2 := by
  decide

/-- C3 (counterexample): on assistant text `"[NOPE: x]"` the conditional
edge does NOT transition to `TOOLS` — `NOPE` is not registered, so
`should_continue` finds no `"[NAME:"` match and terminates; the claimed
`REASONING → TOOLS → REASONING` round trip never happens. -/
theorem C3_counterexample : should_continue stateC3 ≠ Route.tools := by decide

/-- C3 (amended): the Tool Invoker, run on `"[NOPE: x]"`, produces exactly
one `System` message stating the tool was not found (and raises nothing, for
every handler collaborator); but the control loop transitions from
`REASONING` directly to `TERMINAL` on that message, because the termination
predicate only recognises registered names. -/
theorem C3_unknown_tool_recovery (oracle : Oracle) (alt : AltParse) (ctx : Ctx) :
    tool_execution_node oracle alt ctx "[NOPE: x]" =
      [Message.system "Error: Tool NOPE not found."] ∧
    should_continue stateC3 = Route.terminal :=
  ⟨rfl, by decide⟩

/-- C4 (counterexample): `LOCATE` and `LOCATE_FACILITY` map to the same
handler in the registry, but argument parsing differs — `LOCATE` has a
dedicated branch building `facility_type`/`lat`/`lon`, while
`LOCATE_FACILITY` falls through to the generic `{"args": args}` fallback —
so identical argument text does not produce the same handler call. -/
theorem C4_counterexample :
    TOOLS.lookup "LOCATE" = TOOLS.lookup "LOCATE_FACILITY" ∧
    buildCall "LOCATE" "hospital" ctxC4 ≠ buildCall "LOCATE_FACILITY" "hospital" ctxC4 := by
  decide

/-- C4 (amended): for the alias pairs `SEARCH`/`GUIDANCE`,
`EMERGENCY_CALL`/`CALL_EMERGENCY` and `LIFESTYLE_PLAN`/`OPTIMIZE_LIFESTYLE`,
identical argument text yields the same registry handler, identical argument
parsing, and the identical handler call with identical outcome (the wrapped
`System` message differs only in the embedded tool-name tag); the pair
`LOCATE`/`LOCATE_FACILITY` is excluded, as the counterexample shows. -/
theorem C4_alias_equivalence (args : String) (ctx : Ctx) (oracle : Oracle) :
    (TOOLS.lookup "SEARCH" = TOOLS.lookup "GUIDANCE" ∧
     buildCall "SEARCH" args ctx = buildCall "GUIDANCE" args ctx ∧
     rawInvoke oracle ctx "SEARCH" args = rawInvoke oracle ctx "GUIDANCE" args) ∧
    (TOOLS.lookup "EMERGENCY_CALL" = TOOLS.lookup "CALL_EMERGENCY" ∧
     buildCall "EMERGENCY_CALL" args ctx = buildCall "CALL_EMERGENCY" args ctx ∧
     rawInvoke oracle ctx "EMERGENCY_CALL" args = rawInvoke oracle ctx "CALL_EMERGENCY" args) ∧
    (TOOLS.lookup "LIFESTYLE_PLAN" = TOOLS.lookup "OPTIMIZE_LIFESTYLE" ∧
     buildCall "LIFESTYLE_PLAN" args ctx = buildCall "OPTIMIZE_LIFESTYLE" args ctx ∧
     rawInvoke oracle ctx "LIFESTYLE_PLAN" args = rawInvoke oracle ctx "OPTIMIZE_LIFESTYLE" args) :=
  ⟨⟨rfl, rfl, rfl⟩, ⟨rfl, rfl, rfl⟩, ⟨rfl, rfl, rfl⟩⟩

/-- C5 (counterexample): `contentC5` contains no `"[NAME:"` substring for
any registered name, and no registered name followed by `:` inside its
fenced code block (the spec-side notion), yet `should_continue` transitions
to `TOOLS` — the implemented check only requires a fence marker anywhere
plus `NAME:` anywhere in the text. -/
theorem C5_counterexample :
    TOOLS.all (fun p => !pyIn ("[" ++ p.1 ++ ":") contentC5) = true ∧
    specFencedToolRequest contentC5 = false ∧
    should_continue stateC5 = Route.tools := by
  decide

/-- C10: every `ALERT` invocation calls the emergency-alert handler with
`contact_number` hardcoded to `"+96171186871"` and `message` equal to the
parsed argument text, independently of `user_id` and `user_location`. -/
theorem C10_alert_hardcoded (args : String) (c c2 : Ctx) :
    buildCall "ALERT" args c =
      .invoke [("contact_number", .vs "+96171186871"), ("message", .vs args)] ∧
    buildCall "ALERT" args c = buildCall "ALERT" args c2 ∧
    TOOLS.lookup "ALERT" = some Handler.trigger_emergency_alert :=
  have h1 : buildCall "ALERT" args c =
      .invoke [("contact_number", .vs "+96171186871"), ("message", .vs args)] := rfl
  have h2 : buildCall "ALERT" args c2 =
      .invoke [("contact_number", .vs "+96171186871"), ("message", .vs args)] := rfl
  ⟨h1, h1.trans h2.symm, rfl⟩

/-- C7: merging an empty incoming batch into any history of length at most
`MAX_WINDOW_SIZE` returns the history unchanged — same messages, same
order, no eviction, no synthetic marker. -/
theorem C7_merge_identity (h : List Message) (hlen : h.length ≤ MAX_WINDOW_SIZE) :
    sliding_window_messages h [] = h := by
  have h2 : (h ++ ([] : List Message)).length ≤ MAX_WINDOW_SIZE := by
    simpa using hlen
  simp only [sliding_window_messages]
  rw [if_pos h2]
  exact List.append_nil h

/-- Witness for C7 at a concrete two-message history. -/
theorem C7_merge_identity_witness :
    sliding_window_messages [Message.system "You are an assistant", Message.user "Hi"] [] =
      [Message.system "You are an assistant", Message.user "Hi"] :=
  C7_merge_identity _ (by decide)

/-- The clamp in `available_slots` guarantees at least `PRESERVE_RECENT`
slots. -/
lemma preserve_le_slots (combined : List Message) :
    PRESERVE_RECENT ≤ available_slots combined := by
  simp only [available_slots]
  split <;> omega

/-- The retained conversational tail never exceeds `available_slots`. -/
lemma recent_length_le (combined : List Message) :
    (recent_messages combined).length ≤ available_slots combined := by
  simp only [recent_messages]
  split
  · simp
  · have h6 := preserve_le_slots combined
    simp only [pyTail]
    rw [if_neg (by simp only [PRESERVE_RECENT] at h6; omega)]
    simp only [List.length_drop]
    omega

/-- C6: the merged result never exceeds
`max(MAX_WINDOW_SIZE, len(retained_system)+1+PRESERVE_RECENT)` messages, and
with the modelled defaults (20 and 6) never exceeds 20 messages, for every
pair of message lists. -/
theorem C6_compaction_bound (existing incoming : List Message) :
    (sliding_window_messages existing incoming).length ≤ MAX_WINDOW_SIZE ∧
    (sliding_window_messages existing incoming).length ≤
      max MAX_WINDOW_SIZE
        (((system_messages (existing ++ incoming)).take 3).length + 1 +
          PRESERVE_RECENT) := by
  have hb : (sliding_window_messages existing incoming).length ≤ MAX_WINDOW_SIZE := by
    simp only [sliding_window_messages]
    split
    · assumption
    · have hr := recent_length_le (existing ++ incoming)
      have ht : ((system_messages (existing ++ incoming)).take 3).length =
          min 3 (system_messages (existing ++ incoming)).length := by simp
      have hm : (if 0 < dropped_count (existing ++ incoming) then
          [markerMessage (dropped_count (existing ++ incoming))] else []).length ≤ 1 := by
        split <;> simp
      have hslots : available_slots (existing ++ incoming) = PRESERVE_RECENT ∨
          (available_slots (existing ++ incoming) =
             MAX_WINDOW_SIZE - (system_messages (existing ++ incoming)).length - 1 ∧
           ¬(MAX_WINDOW_SIZE - (system_messages (existing ++ incoming)).length - 1 <
             PRESERVE_RECENT)) := by
        simp only [available_slots]
        split
        · left; rfl
        · right; exact ⟨rfl, by assumption⟩
      simp only [evictionResult, List.length_append]
      rcases hslots with hs | ⟨hs, hge⟩ <;>
        · rw [hs] at hr
          simp only [MAX_WINDOW_SIZE, PRESERVE_RECENT] at *
          omega
  exact ⟨hb, le_trans hb (le_max_left _ _)⟩

/-- C8: a `System` message containing "critical" (case-insensitively) is
never evicted by a merge as long as fewer than 3 keyword-matching system
messages precede it in the concatenated sequence: it is one of the first 3
retained system messages and so appears in the result. -/
theorem C8_critical_retention (existing incoming pre post : List Message) (c : String)
    (hdecomp : existing ++ incoming = pre ++ Message.system c :: post)
    (hcrit : pyIn "critical" (pyLower c) = true)
    (hcount : (pre.filter isKeywordSystem).length < 3) :
    Message.system c ∈ sliding_window_messages existing incoming := by
  have hkw : isKeywordSystem (Message.system c) = true := by
    simp only [isKeywordSystem]
    exact List.any_eq_true.mpr ⟨"critical", by simp [keyword_list], hcrit⟩
  simp only [sliding_window_messages]
  split
  · rw [hdecomp]
    exact List.mem_append.mpr (Or.inr (List.mem_cons_self _ _))
  · simp only [evictionResult]
    apply List.mem_append.mpr
    left
    apply List.mem_append.mpr
    left
    simp only [system_messages]
    rw [hdecomp, List.filter_append, List.filter_cons_of_pos hkw,
      List.take_append_eq_append_take]
    apply List.mem_append.mpr
    right
    obtain ⟨k, hk⟩ : ∃ k, 3 - (List.filter isKeywordSystem pre).length = k + 1 :=
      ⟨3 - (List.filter isKeywordSystem pre).length - 1, by omega⟩
    rw [hk, List.take_succ_cons]
    exact List.mem_cons_self _ _

/-- Witness for C8 at a concrete overlong history. -/
theorem C8_critical_retention_witness :
    Message.system "CRITICAL update" ∈ sliding_window_messages exC8 [] :=
  C8_critical_retention exC8 [] []
    ((List.range 20).map (fun i => Message.user (toString i))) "CRITICAL update"
    (by decide) (by decide) (by decide)

/-- C9: the Tool Invoker converts a raising handler into a `System` message
of the form `Tool Error (<name>): <exception text>`, processes every parsed
tool call in order (one output message per call, the i-th output produced
from the i-th call), and — being a total function — never lets the
exception propagate out of the tool-execution step. -/
theorem C9_tool_error_recovery (oracle : Oracle) (ctx : Ctx)
    (calls : List (String × String)) (rawName rawArgs : String)
    (tf : Handler) (argmap : List (String × Value)) (e : String)
    (hlook : TOOLS.lookup (pyStrip rawName) = some tf)
    (hbuild : buildCall (pyStrip rawName) (pyStrip rawArgs) ctx = .invoke argmap)
    (herr : oracle tf argmap = .error e) :
    (execCalls oracle ctx calls).length = calls.length ∧
    (∀ i (hi : i < calls.length),
      (execCalls oracle ctx calls).get ⟨i, by simpa [execCalls] using hi⟩ =
        processCall oracle ctx (calls.get ⟨i, hi⟩).1 (calls.get ⟨i, hi⟩).2) ∧
    processCall oracle ctx rawName rawArgs =
      Message.system ("Tool Error (" ++ pyStrip rawName ++ "): " ++ e) := by
  refine ⟨by simp [execCalls], ?_, ?_⟩
  · intro i hi
    simp [execCalls]
  · simp only [processCall, hlook, hbuild, herr]

/-- Witness for C9: a raising handler on a parsed `SEARCH` call yields the
tagged tool-error message. -/
theorem C9_tool_error_recovery_witness :
    processCall oracleBoom ⟨1, 0, 0⟩ "SEARCH" "a" =
      Message.system "Tool Error (SEARCH): boom" :=
  (C9_tool_error_recovery oracleBoom ⟨1, 0, 0⟩ [("SEARCH", "a")] "SEARCH" "a"
    .search_clinical_guidance [("query", .vs "a")] "boom"
    (by decide) (by decide) rfl).2.2

/-- Above the iteration cap the conditional edge routes to `END` regardless
of the latest assistant text. -/
lemma should_continue_cap {s : AgentState} (h : 5 < s.iterations) :
    should_continue s = Route.terminal := by
  simp only [should_continue]
  rw [if_pos h]

/-- Merging a single non-system message through the sliding window always
leaves it as the last element of the result: it is the tail of the
conversation partition and the slot clamp keeps at least one slot. -/
lemma merge_getLast (ms : List Message) (m : Message) (hm : m.isSystem = false) :
    (sliding_window_messages ms [m]).getLast? = some m := by
  simp only [sliding_window_messages]
  split
  · exact List.getLast?_concat _
  · have hconv : conversation_messages (ms ++ [m]) =
        ms.filter (fun x => !x.isSystem) ++ [m] := by
      simp only [conversation_messages]
      rw [List.filter_append]
      simp [hm]
    have h6 := preserve_le_slots (ms ++ [m])
    simp only [PRESERVE_RECENT] at h6
    have hrec : recent_messages (ms ++ [m]) =
        (ms.filter (fun x => !x.isSystem)).drop
          ((ms.filter (fun x => !x.isSystem)).length + 1 -
            available_slots (ms ++ [m])) ++ [m] := by
      simp only [recent_messages, hconv]
      rw [if_neg (by simp)]
      simp only [pyTail]
      rw [if_neg (by omega)]
      rw [List.drop_append_eq_append_drop]
      have hz : (ms.filter (fun x => !x.isSystem) ++ [m]).length -
          available_slots (ms ++ [m]) -
          (ms.filter (fun x => !x.isSystem)).length = 0 := by
        simp only [List.length_append, List.length_singleton]
        omega
      rw [hz]
      simp [List.length_append]
  -- final: evictionResult ends with recent_messages, which ends with m
    simp only [evictionResult, hrec]
    rw [List.append_assoc]
    rw [List.getLast?_append_of_ne_nil _ (by simp)]
    rw [List.getLast?_append_of_ne_nil _ (by simp)]
    exact List.getLast?_concat _

/-- Below the cap, a latest assistant message passing the bracket check
routes to `"tools"`. -/
lemma should_continue_tools_of {s : AgentState} (hit : s.iterations ≤ 5)
    {c : String} (hlast : s.messages.getLast? = some (.assistant c))
    (hb : bracketToolMatch c = true) : should_continue s = Route.tools := by
  simp only [should_continue, hlast, Option.getD_some]
  rw [if_neg (by omega)]
  simp [hb]

/-- Counting lemma for `runLoop`: starting `k` iterations below the cap with
a model that always passes the bracket check, exactly `k + 1` reasoning
steps run. -/
lemma runLoop_count (model : AgentState → String) (oracle : Oracle) (alt : AltParse)
    (hm : ∀ t, bracketToolMatch (model t) = true) :
    ∀ k (s : AgentState), s.iterations + k = 5 →
      (runLoop model oracle alt s).2 = k + 1 := by
  intro k
  induction k with
  | zero =>
    intro s hs
    rw [runLoop]
    have hterm : should_continue (reasoningUpdate model s) = Route.terminal :=
      should_continue_cap (by simp only [reasoningUpdate]; omega)
    rw [dif_neg (by simp [hterm])]
  | succ k ih =>
    intro s hs
    rw [runLoop]
    have htools : should_continue (reasoningUpdate model s) = Route.tools := by
      refine should_continue_tools_of (by simp only [reasoningUpdate]; omega) ?_ (hm s)
      simp only [reasoningUpdate]
      exact merge_getLast s.messages _ rfl
    rw [dif_pos htools]
    have hrec := ih (toolsUpdate oracle alt (reasoningUpdate model s))
      (by simp only [toolsUpdate, reasoningUpdate]; omega)
    simpa using hrec

/-- C1: every Reasoning Step increments `iterations` by exactly 1; once
`iterations` exceeds 5 the edge routes to `END` regardless of the latest
text; and from `iterations = 0`, with a model collaborator whose every
completion contains a registered `"[NAME:"` request (and brackets), the loop
performs exactly 6 reasoning-node invocations and terminates. -/
theorem C1_iteration_cap (model : AgentState → String) (oracle : Oracle)
    (alt : AltParse) :
    (∀ s, (reasoningUpdate model s).iterations = s.iterations + 1) ∧
    (∀ s, 5 < s.iterations → should_continue s = Route.terminal) ∧
    (∀ s, s.iterations = 0 → (∀ t, bracketToolMatch (model t) = true) →
      (runLoop model oracle alt s).2 = 6) := by
  refine ⟨fun s => rfl, fun s h => should_continue_cap h, fun s h0 hm => ?_⟩
  have h5 := runLoop_count model oracle alt hm 5 s (by omega)
  simpa using h5

/-- Witness for C1: with the always-requesting model, the loop performs
exactly 6 reasoning steps from a fresh state. -/
theorem C1_iteration_cap_witness :
    (runLoop modelC1 oracleOk altNone stateC1).2 = 6 :=
  have hbm : bracketToolMatch "[GET_PROFILE: 1]" = true := by decide
  (C1_iteration_cap modelC1 oracleOk altNone).2.2 stateC1 rfl (fun _ => hbm)

/-- C5 (amended): when the latest assistant message contains no `"[NAME:"`
substring for any registered name, the edge transitions to `TOOLS` if and
only if the text contains a fence marker somewhere AND some registered name
followed by `:` somewhere in the text — the registered name is NOT required
to occur inside the fenced block (see the counterexample). -/
theorem C5_fenced_trigger (c : String) (its : Nat) (ct : Ctx) (h1 : its ≤ 5)
    (h2 : TOOLS.any (fun p => pyIn ("[" ++ p.1 ++ ":") c) = false) :
    should_continue ⟨[Message.assistant c], its, ct⟩ = Route.tools ↔
      fencedToolMatch c = true := by
  have hb : bracketToolMatch c = false := by
    simp [bracketToolMatch, h2]
  have hni : ¬ 5 < its := by omega
  cases hf : fencedToolMatch c <;>
    simp [should_continue, hni, hb, hf]

/-- Witness for C5: the amended criterion fires on `contentC5`. -/
theorem C5_fenced_trigger_witness :
    should_continue stateC5 = Route.tools :=
  (C5_fenced_trigger contentC5 1 ⟨1, 0, 0⟩ (by omega) (by decide)).mpr (by decide)
